import Mathlib

/-!
Verification of the bounded-history reactive data pipeline of the
`cintel-05-cintel` live-data dashboard (`docs/app.py`).

The source is a PyShiny app.  Its core is:

* a module-level `deque(maxlen=DEQUE_SIZE)` (`DEQUE_SIZE = 5`) wrapped in a
  reactive value,
* a reactive calculation `reactive_calc_combined` that, on every invocation,
  draws two rounded uniform temperatures, stamps the wall-clock time, appends
  the resulting dictionary entry to the deque and returns the tuple
  `(deque_snapshot, df, latest_dictionary_entry)`,
* render bindings, among them `compare_temperatures` and the plotly chart
  `display_plot`, which fits `scipy.stats.linregress` over row indices versus
  Antarctic temperatures.

The embedding below models Python floats as exact rationals (`Rat`), with the
IEEE NaN produced by scipy's `0.0/0.0` represented as `Option.none`; mutable
state (the deque, the cached tuple, the in-place DataFrame column
assignments) is passed explicitly, the result of a call standing for the
post-call state of the object the source mutates.
-/

/-- One sample, the dictionary entry built by `reactive_calc_combined`:
`{"temp_antarctic": ..., "temp_arctic": ..., "timestamp": ...}`.
Temperatures are exact rationals; the timestamp string
`datetime.now().strftime("%Y-%m-%d %H:%M:%S")` is modelled as the wall-clock
time in whole seconds. -/
structure Reading where
  temp_antarctic : Rat
  temp_arctic : Rat
  timestamp : Nat
deriving DecidableEq, Repr

/-- One row of the pandas DataFrame `pd.DataFrame(deque_snapshot)`: the same
three columns as a `Reading`. -/
structure Row where
  temp_antarctic : Rat
  temp_arctic : Rat
  timestamp : Nat
deriving DecidableEq, Repr

/-- `pd.DataFrame(list-of-dicts)` turns one dictionary into one row carrying
its three fields. -/
def toRow (r : Reading) : Row :=
  { temp_antarctic := r.temp_antarctic
    temp_arctic := r.temp_arctic
    timestamp := r.timestamp }

/-- The DataFrame object: its rows, plus the state of the two in-place column
updates `display_plot` performs on it (`df["timestamp"] = pd.to_datetime(...)`
and `df['best_fit_line'] = [...]`).  Fresh from `pd.DataFrame(deque_snapshot)`
the timestamp column is a string column and there is no `best_fit_line`
column.  An entry `none` in the `best_fit_line` column is an IEEE NaN. -/
structure DataFrame where
  rows : List Row
  timestampAsDatetime : Bool
  best_fit_line : Option (List (Option Rat))
deriving DecidableEq, Repr

/-- `pd.DataFrame(deque_snapshot)`: one row per deque entry, in order. -/
def mkDataFrame (entries : List Reading) : DataFrame :=
  { rows := entries.map toRow
    timestampAsDatetime := false
    best_fit_line := none }

/-- `UPDATE_INTERVAL_SECS: int = 3`. -/
def UPDATE_INTERVAL_SECS : Nat := 3

/-- `DEQUE_SIZE: int = 5`. -/
def DEQUE_SIZE : Nat := 5

/-- `collections.deque(maxlen=m).append(x)`: appends at the tail and, when the
deque is full, silently discards from the head so the length never exceeds
`m` (for a deque reached by appends alone the drop count is `0` or `1`). -/
def dequeAppend (maxlen : Nat) (buf : List Reading) (x : Reading) : List Reading :=
  (buf ++ [x]).drop (buf.length + 1 - maxlen)

/-- Python's `round` on a real value: round half to even (the float
representation error of CPython's `round` is below the resolution any claim
here depends on). -/
def roundHalfEven (x : Rat) : Int :=
  if x - ⌊x⌋ < 1 / 2 then ⌊x⌋
  else if 1 / 2 < x - ⌊x⌋ then ⌊x⌋ + 1
  else if ⌊x⌋ % 2 = 0 then ⌊x⌋ else ⌊x⌋ + 1

/-- `round(x, 1)`: round to one decimal place. -/
def pyRound1 (x : Rat) : Rat := (roundHalfEven (10 * x) : Rat) / 10

/-- The ambient inputs of one invocation of `reactive_calc_combined`: the two
raw draws `random.uniform(-18, -16)` and `random.uniform(-20, -15)` and the
wall-clock second `datetime.now()` falls in. -/
structure GenInput where
  u_antarctic : Rat
  u_arctic : Rat
  now : Nat
deriving DecidableEq, Repr

/-- The data-generation block of `reactive_calc_combined`:
`temp_antarctic = round(random.uniform(-18, -16), 1)`,
`temp_arctic = round(random.uniform(-20, -15), 1)`,
`timestamp = datetime.now().strftime("%Y-%m-%d %H:%M:%S")`. -/
def mkReading (g : GenInput) : Reading :=
  { temp_antarctic := pyRound1 g.u_antarctic
    temp_arctic := pyRound1 g.u_arctic
    timestamp := g.now }

/-- The tuple `reactive_calc_combined` returns:
`(deque_snapshot, df, latest_dictionary_entry)`. -/
structure Snapshot where
  deque_snapshot : List Reading
  df : DataFrame
  latest : Reading
deriving DecidableEq, Repr

/-- The body of `reactive_calc_combined`, given the current deque contents and
the invocation's ambient inputs: build the new entry, append it to the deque,
re-read the deque, build the DataFrame and return the tuple.  The first
component of the result is the deque contents after the call. -/
def reactive_calc_combined (state : List Reading) (g : GenInput) :
    List Reading × Snapshot :=
  let new_dictionary_entry := mkReading g
  let newBuf := dequeAppend DEQUE_SIZE state new_dictionary_entry
  let deque_snapshot := newBuf
  let df := mkDataFrame deque_snapshot
  let latest_dictionary_entry := new_dictionary_entry
  (newBuf,
    { deque_snapshot := deque_snapshot
      df := df
      latest := latest_dictionary_entry })

/-- The deque contents after running the pipeline once per element of `gens`,
starting from the freshly constructed empty deque. -/
def bufferAfter (gens : List GenInput) : List Reading :=
  gens.foldl (fun buf g => (reactive_calc_combined buf g).1) []

/-- Decimal rendering of a one-decimal float the way a Python f-string shows
it (for example `-19.0`). -/
def fmt1 (q : Rat) : String :=
  (if ⌊10 * q⌋ < 0 then "-" else "")
    ++ toString ((⌊10 * q⌋).natAbs / 10) ++ "." ++ toString ((⌊10 * q⌋).natAbs % 10)

/-- The render body of `compare_temperatures`, a pure function of the latest
dictionary entry of the snapshot. -/
def compare_temperatures (latest : Reading) : String :=
  let t_arctic := latest.temp_arctic
  let t_antarctic := latest.temp_antarctic
  if t_arctic < t_antarctic then
    "Arctic is colder: " ++ fmt1 t_arctic ++ "°C vs " ++ fmt1 t_antarctic ++ "°C"
  else
    "Antarctic is colder: " ++ fmt1 t_antarctic ++ "°C vs " ++ fmt1 t_arctic ++ "°C"

/-- `np.amax` of a nonempty array (the empty case is unreachable behind
`linregress`'s emptiness guard). -/
def amax : List Rat → Rat
  | [] => 0
  | a :: l => l.foldl max a

/-- `np.amin` of a nonempty array. -/
def amin : List Rat → Rat
  | [] => 0
  | a :: l => l.foldl min a

/-- `np.mean`. -/
def mean (l : List Rat) : Rat := l.sum / l.length

/-- One entry of `np.cov(x, y, bias=1)`: the mean of
`(x[i] - mean x) * (y[i] - mean y)`.  `ssxm = ssxy x x`, `ssxym = ssxy x y`. -/
def ssxy (x y : List Rat) : Rat :=
  (((x.zip y).map (fun p => (p.1 - mean x) * (p.2 - mean y))).sum) / x.length

/-- `scipy.stats.linregress(x, y)`, restricted to the `(slope, intercept)`
components `display_plot` uses.  The two `raise ValueError` guards become
`Except.error`.  Past the guards, `slope = ssxym / ssxm` in IEEE arithmetic:
when `ssxm = 0` (only possible for a single-point input, since identical
`x`-values with more than one point raise) this is `0.0 / 0.0 = NaN`,
modelled as `none`; `intercept = ymean - slope * xmean` inherits the NaN. -/
def linregress (x y : List Rat) : Except String (Option Rat × Option Rat) :=
  if x.length = 0 ∨ y.length = 0 then
    Except.error "Inputs must not be empty."
  else if amax x = amin x ∧ 1 < x.length then
    Except.error "Cannot calculate a linear regression if all x values are identical"
  else
    let ssxm := ssxy x x
    let ssxym := ssxy x y
    let slope : Option Rat := if ssxm = 0 then none else some (ssxym / ssxm)
    let intercept : Option Rat := slope.map (fun s => mean y - s * mean x)
    Except.ok (slope, intercept)

/-- The plotly figure `display_plot` builds: the scatter of raw readings, the
added regression trace, the title and the axis titles set by
`update_layout`. -/
structure Fig where
  points_x : List Nat
  points_y : List Rat
  title : String
  line_x : List Nat
  line_y : List (Option Rat)
  xaxis_title : String
  yaxis_title : String
deriving DecidableEq, Repr

/-- The render body of `display_plot`.  Python binds `fig` only inside
`if not df.empty:`; on an empty DataFrame the trailing `return fig` raises
`NameError`, modelled as `Except.error`.  The two column assignments
`df["timestamp"] = pd.to_datetime(df["timestamp"])` and
`df['best_fit_line'] = [slope * x + intercept for x in x_vals]` mutate the
snapshot's DataFrame object in place (pandas `__setitem__`); the embedding
passes that object's state explicitly and returns its post-call state
alongside the figure. -/
def display_plot (snap : Snapshot) : Except String (DataFrame × Fig) :=
  let df := snap.df
  if df.rows.isEmpty then
    Except.error "NameError: name 'fig' is not defined"
  else
    let dfTs : DataFrame := { df with timestampAsDatetime := true }
    let x_vals : List Rat := (List.range dfTs.rows.length).map (fun i : Nat => (i : Rat))
    let y_vals : List Rat := dfTs.rows.map (fun r => r.temp_antarctic)
    match linregress x_vals y_vals with
    | Except.error e => Except.error e
    | Except.ok (slope, intercept) =>
      let best_fit : List (Option Rat) :=
        x_vals.map (fun x => slope.bind (fun s => intercept.map (fun b => s * x + b)))
      let dfFit : DataFrame := { dfTs with best_fit_line := some best_fit }
      let fig : Fig :=
        { points_x := dfFit.rows.map (fun r => r.timestamp)
          points_y := dfFit.rows.map (fun r => r.temp_antarctic)
          title := "Temperature Readings with Regression Line (Antarctic)"
          line_x := dfFit.rows.map (fun r => r.timestamp)
          line_y := best_fit
          xaxis_title := "Time"
          yaxis_title := "Temperature (°C)" }
      Except.ok (dfFit, fig)

/-- The slope `display_plot`'s `linregress` call computes for a given row
list: fitted over `x_vals = range(len(df))` against the Antarctic column. -/
def regSlope (rows : List Row) : Option Rat :=
  let xs := (List.range rows.length).map (fun i : Nat => (i : Rat))
  let ys := rows.map (fun r => r.temp_antarctic)
  if ssxy xs xs = 0 then none else some (ssxy xs ys / ssxy xs xs)

/-- The matching intercept, `ymean - slope * xmean`. -/
def regIntercept (rows : List Row) : Option Rat :=
  (regSlope rows).map
    (fun s => mean (rows.map (fun r => r.temp_antarctic))
      - s * mean ((List.range rows.length).map (fun i : Nat => (i : Rat))))

/-- The `best_fit_line` column `display_plot` assigns:
`[slope * x + intercept for x in x_vals]`. -/
def bestFitLine (rows : List Row) : List (Option Rat) :=
  ((List.range rows.length).map (fun i : Nat => (i : Rat))).map
    (fun x => (regSlope rows).bind (fun s => (regIntercept rows).map (fun b => s * x + b)))

/-- The figure `display_plot` returns for a given row list. -/
def chartFig (rows : List Row) : Fig :=
  { points_x := rows.map (fun r => r.timestamp)
    points_y := rows.map (fun r => r.temp_antarctic)
    title := "Temperature Readings with Regression Line (Antarctic)"
    line_x := rows.map (fun r => r.timestamp)
    line_y := bestFitLine rows
    xaxis_title := "Time"
    yaxis_title := "Temperature (°C)" }

/-- The deque contents together with the `@reactive.calc()` cache. -/
structure CalcState where
  buf : List Reading
  cache : Option Snapshot
deriving DecidableEq, Repr

/-- Modelled from the spec: the memoization the `@reactive.calc()` decorator
of the shiny framework gives `reactive_calc_combined` (the decorator's
implementation lives in the framework, not in this repository).  Per the
spec's memoization contract, a read between triggers returns the cached
Snapshot unchanged; only a read after invalidation runs the body. -/
def readCalc (s : CalcState) (g : GenInput) : Snapshot × CalcState :=
  match s.cache with
  | some snap => (snap, s)
  | none =>
    let out := reactive_calc_combined s.buf g
    (out.2, { buf := out.1, cache := some out.2 })

/-- Modelled from the spec: `reactive.invalidate_later(UPDATE_INTERVAL_SECS)`
marks the cached result stale at the next tick; the deque itself is
untouched. -/
def invalidateCalc (s : CalcState) : CalcState := { buf := s.buf, cache := none }

/-- A concrete ambient input: raw draws `-17.0 ∈ [-18, -16]` and
`-15.5 ∈ [-20, -15]` at wall-clock second `100`. -/
def gA : GenInput := { u_antarctic := -17, u_arctic := -31 / 2, now := 100 }

/-- A second concrete ambient input: raw draws `-16.6` and `-18.0` at
wall-clock second `103`. -/
def gB : GenInput := { u_antarctic := -83 / 5, u_arctic := -18, now := 103 }

/-- The snapshot of the very first tick: one invocation on the freshly
constructed empty deque, with ambient input `gA`. -/
def firstTickSnap : Snapshot := (reactive_calc_combined [] gA).2

/-! ### Helper lemmas about the deque -/

lemma dequeAppend_getLast? (buf : List Reading) (x : Reading) :
    (dequeAppend DEQUE_SIZE buf x).getLast? = some x := by
  have h : buf.length + 1 - DEQUE_SIZE ≤ buf.length := by
    unfold DEQUE_SIZE; omega
  unfold dequeAppend
  rw [List.drop_append_of_le_length h, List.getLast?_concat]

lemma dequeAppend_ne_nil (buf : List Reading) (x : Reading) :
    dequeAppend DEQUE_SIZE buf x ≠ [] := by
  intro hnil
  have h := dequeAppend_getLast? buf x
  rw [hnil] at h
  simp [List.getLast?] at h

lemma foldl_calc_eq (gens : List GenInput) :
    ∀ buf : List Reading, buf.length ≤ 5 →
      gens.foldl (fun b g => (reactive_calc_combined b g).1) buf
        = (buf ++ gens.map mkReading).drop (buf.length + gens.length - 5) := by
  induction gens with
  | nil =>
    intro buf h
    simp only [List.foldl_nil, List.map_nil, List.append_nil, List.length_nil,
      Nat.add_zero]
    rw [Nat.sub_eq_zero_of_le h, List.drop_zero]
  | cons g gens ih =>
    intro buf h
    have hstep : (reactive_calc_combined buf g).1
        = (buf ++ [mkReading g]).drop (buf.length + 1 - 5) := rfl
    rw [List.foldl_cons, hstep]
    have hlen : ((buf ++ [mkReading g]).drop (buf.length + 1 - 5)).length ≤ 5 := by
      simp only [List.length_drop, List.length_append, List.length_cons, List.length_nil]
      omega
    rw [ih _ hlen]
    have hassoc : buf ++ mkReading g :: gens.map mkReading
        = (buf ++ [mkReading g]) ++ gens.map mkReading := by simp
    have ha : buf.length + 1 - 5 ≤ (buf ++ [mkReading g]).length := by
      simp [List.length_append]; omega
    rw [List.map_cons, hassoc, ← List.drop_append_of_le_length ha, List.drop_drop]
    congr 1
    simp [List.length_drop, List.length_append, List.length_cons]
    omega

/-- C1: the history buffer is a strict FIFO of capacity 5: after any sequence
of `N` pipeline invocations the deque's length is `min N 5`, its contents are
exactly the last five generated readings in append order (oldest evicted
first), and each further invocation performs exactly one append. -/
theorem history_buffer_fifo (gens : List GenInput) (g : GenInput) :
    (bufferAfter gens).length = min gens.length 5 ∧
    bufferAfter gens = (gens.map mkReading).drop (gens.length - 5) ∧
    bufferAfter (gens ++ [g])
      = dequeAppend DEQUE_SIZE (bufferAfter gens) (mkReading g) := by
  have hmain : bufferAfter gens = (gens.map mkReading).drop (gens.length - 5) := by
    have h := foldl_calc_eq gens [] (by simp)
    simpa [bufferAfter] using h
  refine ⟨?_, hmain, ?_⟩
  · rw [hmain]
    simp only [List.length_drop, List.length_map]
    omega
  · unfold bufferAfter
    rw [List.foldl_append]
    rfl

/-- C4: after every pipeline invocation, the newly generated reading is the
snapshot's `latest` field, the snapshot's deque contents are the post-append
buffer, and the new reading sits at the buffer's tail. -/
theorem latest_is_tail (state : List Reading) (g : GenInput) :
    (reactive_calc_combined state g).2.latest = mkReading g ∧
    (reactive_calc_combined state g).2.deque_snapshot = (reactive_calc_combined state g).1 ∧
    ((reactive_calc_combined state g).2.deque_snapshot).getLast?
      = some ((reactive_calc_combined state g).2.latest) := by
  exact ⟨rfl, rfl, dequeAppend_getLast? state (mkReading g)⟩

/-- C8: every snapshot the pipeline emits is complete and internally
consistent: the tabular projection has one row per buffer entry, row `i`
carries exactly the fields of buffer entry `i`, and this holds already on
the first tick, where the buffer has length 1.  (All fields are total: a
snapshot cannot carry a missing or null field.) -/
theorem snapshot_consistent (state : List Reading) (g : GenInput) :
    (reactive_calc_combined state g).2.df.rows
        = ((reactive_calc_combined state g).2.deque_snapshot).map toRow ∧
    (reactive_calc_combined state g).2.df.rows.length
        = (reactive_calc_combined state g).2.deque_snapshot.length ∧
    (∀ i : Nat, (reactive_calc_combined state g).2.df.rows[i]?
        = ((reactive_calc_combined state g).2.deque_snapshot[i]?).map toRow) ∧
    (reactive_calc_combined [] g).2.df.rows.length = 1 := by
  refine ⟨rfl, by simp [reactive_calc_combined, mkDataFrame], ?_, rfl⟩
  intro i
  simp [reactive_calc_combined, mkDataFrame]

/-- C7: between invalidations, a second read of the memoized calculation
returns the identical cached snapshot and leaves the whole state (deque and
cache) unchanged: no second reading is generated, and all consumers reading
within one tick observe the same reading and timestamp. -/
theorem memoized_read_stable (s : CalcState) (g g' : GenInput) :
    readCalc (readCalc s g).2 g' = ((readCalc s g).1, (readCalc s g).2) := by
  cases h : s.cache with
  | some snap => simp [readCalc, h]
  | none => simp [readCalc, h]

/-! ### Helper lemmas about rounding -/

lemma le_roundHalfEven (lo : Int) (x : Rat) (h : (lo : Rat) ≤ x) :
    lo ≤ roundHalfEven x := by
  have hf : lo ≤ ⌊x⌋ := Int.le_floor.mpr h
  unfold roundHalfEven
  split_ifs <;> omega

lemma roundHalfEven_le (hi : Int) (x : Rat) (h : x ≤ (hi : Rat)) :
    roundHalfEven x ≤ hi := by
  have hf : ⌊x⌋ ≤ hi := by
    have h1 : ⌊x⌋ ≤ ⌊(hi : Rat)⌋ := Int.floor_le_floor h
    simpa using h1
  unfold roundHalfEven
  split_ifs with h1 h2 h3
  · exact hf
  all_goals {
    have hlt : (⌊x⌋ : Rat) < x := by
      have hfr : (1 : Rat) / 2 ≤ x - ⌊x⌋ := le_of_not_lt h1
      linarith
    have : (⌊x⌋ : Rat) < (hi : Rat) := lt_of_lt_of_le hlt h
    have : ⌊x⌋ < hi := by exact_mod_cast this
    omega }

lemma pyRound1_bounds (lo hi : Int) (x : Rat)
    (h1 : (lo : Rat) ≤ x) (h2 : x ≤ (hi : Rat)) :
    (lo : Rat) ≤ pyRound1 x ∧ pyRound1 x ≤ (hi : Rat) := by
  have hlo : 10 * lo ≤ roundHalfEven (10 * x) := by
    apply le_roundHalfEven
    push_cast
    linarith
  have hhi : roundHalfEven (10 * x) ≤ 10 * hi := by
    apply roundHalfEven_le
    push_cast
    linarith
  have hlo' : ((10 * lo : Int) : Rat) ≤ (roundHalfEven (10 * x) : Rat) := by
    exact_mod_cast hlo
  have hhi' : ((roundHalfEven (10 * x)) : Rat) ≤ ((10 * hi : Int) : Rat) := by
    exact_mod_cast hhi
  unfold pyRound1
  constructor
  · push_cast at hlo' ⊢
    linarith
  · push_cast at hhi' ⊢
    linarith

lemma pyRound1_tenth (x : Rat) : ∃ k : Int, pyRound1 x = (k : Rat) / 10 :=
  ⟨roundHalfEven (10 * x), rfl⟩

/-- C5: every reading the pipeline generates has its Antarctic temperature in
the closed range `[-18, -16]`, its Arctic temperature in `[-20, -15]`, both
rounded to one decimal place (an exact multiple of `1/10`), and its timestamp
equal to the invocation's wall-clock time at second precision. -/
theorem reading_generation_policy (g : GenInput)
    (h1 : -18 ≤ g.u_antarctic) (h2 : g.u_antarctic ≤ -16)
    (h3 : -20 ≤ g.u_arctic) (h4 : g.u_arctic ≤ -15) :
    (-18 ≤ (mkReading g).temp_antarctic ∧ (mkReading g).temp_antarctic ≤ -16) ∧
    (-20 ≤ (mkReading g).temp_arctic ∧ (mkReading g).temp_arctic ≤ -15) ∧
    (∃ k : Int, (mkReading g).temp_antarctic = (k : Rat) / 10) ∧
    (∃ k : Int, (mkReading g).temp_arctic = (k : Rat) / 10) ∧
    (mkReading g).timestamp = g.now := by
  have hant := pyRound1_bounds (-18) (-16) g.u_antarctic (by exact_mod_cast h1)
    (by exact_mod_cast h2)
  have harc := pyRound1_bounds (-20) (-15) g.u_arctic (by exact_mod_cast h3)
    (by exact_mod_cast h4)
  refine ⟨⟨?_, ?_⟩, ⟨?_, ?_⟩, pyRound1_tenth g.u_antarctic, pyRound1_tenth g.u_arctic, rfl⟩
  · exact_mod_cast hant.1
  · exact_mod_cast hant.2
  · exact_mod_cast harc.1
  · exact_mod_cast harc.2

/-- Witness for `reading_generation_policy` at the concrete input `gA`
(raw draws `-17.0` and `-15.5`). -/
theorem reading_generation_policy_witness :
    (-18 ≤ gA.u_antarctic ∧ gA.u_antarctic ≤ -16 ∧
      -20 ≤ gA.u_arctic ∧ gA.u_arctic ≤ -15) ∧
    ((-18 ≤ (mkReading gA).temp_antarctic ∧ (mkReading gA).temp_antarctic ≤ -16) ∧
    (-20 ≤ (mkReading gA).temp_arctic ∧ (mkReading gA).temp_arctic ≤ -15) ∧
    (∃ k : Int, (mkReading gA).temp_antarctic = (k : Rat) / 10) ∧
    (∃ k : Int, (mkReading gA).temp_arctic = (k : Rat) / 10) ∧
    (mkReading gA).timestamp = gA.now) := by
  refine ⟨⟨?_, ?_, ?_, ?_⟩, reading_generation_policy gA ?_ ?_ ?_ ?_⟩
  all_goals simp [gA]
  all_goals norm_num

/-! ### The comparison display -/

lemma fmt1_neg19 : fmt1 (-19 : Rat) = "-19.0" := by
  simp only [fmt1]
  rw [show ⌊(10 : Rat) * (-19 : Rat)⌋ = (-190 : Int) from by norm_num]
  decide

lemma fmt1_neg17 : fmt1 (-17 : Rat) = "-17.0" := by
  simp only [fmt1]
  rw [show ⌊(10 : Rat) * (-17 : Rat)⌋ = (-170 : Int) from by norm_num]
  decide

/-- C3: the comparison display is a pure function of the latest reading that
names whichever region's temperature is numerically lower, formatted with
both values; an exact tie takes the `else` branch and names Antarctic.  In
particular `-19.0` vs `-17.0` selects Arctic and the tie `-17.0` vs `-17.0`
selects Antarctic. -/
theorem compare_colder_region (latest : Reading) :
    (latest.temp_arctic < latest.temp_antarctic →
      compare_temperatures latest
        = "Arctic is colder: " ++ fmt1 latest.temp_arctic ++ "°C vs "
            ++ fmt1 latest.temp_antarctic ++ "°C") ∧
    (latest.temp_antarctic ≤ latest.temp_arctic →
      compare_temperatures latest
        = "Antarctic is colder: " ++ fmt1 latest.temp_antarctic ++ "°C vs "
            ++ fmt1 latest.temp_arctic ++ "°C") ∧
    compare_temperatures
        { temp_antarctic := -17, temp_arctic := -19, timestamp := latest.timestamp }
      = "Arctic is colder: -19.0°C vs -17.0°C" ∧
    compare_temperatures
        { temp_antarctic := -17, temp_arctic := -17, timestamp := latest.timestamp }
      = "Antarctic is colder: -17.0°C vs -17.0°C" := by
  refine ⟨?_, ?_, ?_, ?_⟩
  · intro h
    simp only [compare_temperatures, if_pos h]
  · intro h
    simp only [compare_temperatures]
    rw [if_neg (not_lt.mpr h)]
  · simp only [compare_temperatures]
    rw [if_pos (show (-19 : Rat) < -17 by norm_num), fmt1_neg19, fmt1_neg17]
    decide
  · simp only [compare_temperatures]
    rw [if_neg (show ¬ (-17 : Rat) < -17 by norm_num), fmt1_neg17]
    decide

/-- Witness for `compare_colder_region`: both branch hypotheses discharged at
concrete latest readings. -/
theorem compare_colder_region_witness :
    compare_temperatures { temp_antarctic := -17, temp_arctic := -19, timestamp := 0 }
      = "Arctic is colder: " ++ fmt1 (-19 : Rat) ++ "°C vs " ++ fmt1 (-17 : Rat) ++ "°C" ∧
    compare_temperatures { temp_antarctic := -17, temp_arctic := -17, timestamp := 0 }
      = "Antarctic is colder: -17.0°C vs -17.0°C" := by
  constructor
  · exact (compare_colder_region
      { temp_antarctic := -17, temp_arctic := -19, timestamp := 0 }).1
      (show (-19 : Rat) < -17 by norm_num)
  · exact (compare_colder_region
      { temp_antarctic := -17, temp_arctic := -17, timestamp := 0 }).2.2.2

/-! ### Helper lemmas about the regression -/

lemma le_foldl_max (l : List Rat) : ∀ a : Rat, a ≤ l.foldl max a := by
  induction l with
  | nil => intro a; simp
  | cons b t ih => intro a; exact le_trans (le_max_left a b) (ih (max a b))

lemma foldl_min_le (l : List Rat) : ∀ a : Rat, l.foldl min a ≤ a := by
  induction l with
  | nil => intro a; simp
  | cons b t ih => intro a; exact le_trans (ih (min a b)) (min_le_left a b)

lemma range_cast_shape (m : Nat) :
    (List.range (m + 2)).map (fun i : Nat => (i : Rat))
      = 0 :: 1 :: ((List.range' 2 m).map (fun i : Nat => (i : Rat))) := by
  have h : List.range (m + 2) = 0 :: 1 :: List.range' 2 m := by
    rw [List.range_eq_range']
    rfl
  rw [h]
  simp

lemma amax_ne_amin_idx (n : Nat) (hn : 2 ≤ n) :
    amax ((List.range n).map (fun i : Nat => (i : Rat)))
      ≠ amin ((List.range n).map (fun i : Nat => (i : Rat))) := by
  obtain ⟨m, rfl⟩ : ∃ m, n = m + 2 := ⟨n - 2, by omega⟩
  rw [range_cast_shape]
  intro heq
  have hmax : (1 : Rat) ≤ amax (0 :: 1 :: ((List.range' 2 m).map (fun i : Nat => (i : Rat)))) := by
    show (1 : Rat) ≤ (1 :: _).foldl max 0
    rw [List.foldl_cons, max_eq_right (by norm_num : (0 : Rat) ≤ 1)]
    exact le_foldl_max _ 1
  have hmin : amin (0 :: 1 :: ((List.range' 2 m).map (fun i : Nat => (i : Rat)))) ≤ 0 := by
    show (1 :: _).foldl min 0 ≤ 0
    rw [List.foldl_cons, min_eq_left (by norm_num : (0 : Rat) ≤ 1)]
    exact foldl_min_le _ 0
  rw [heq] at hmax
  linarith

lemma linregress_ok (x y : List Rat) (hx : x ≠ []) (hy : y ≠ [])
    (hne : x.length = 1 ∨ amax x ≠ amin x) :
    linregress x y = Except.ok
      (if ssxy x x = 0 then none else some (ssxy x y / ssxy x x),
        (if ssxy x x = 0 then none
          else some (ssxy x y / ssxy x x) : Option Rat).map
          (fun s => mean y - s * mean x)) := by
  unfold linregress
  rw [if_neg, if_neg]
  · rintro ⟨heq, hlt⟩
    rcases hne with h1 | h2
    · omega
    · exact h2 heq
  · push_neg
    constructor
    · exact fun h => hx (List.length_eq_zero.mp h)
    · exact fun h => hy (List.length_eq_zero.mp h)

lemma linregress_chart (rows : List Row) (hrows : rows ≠ [])
    (hne : rows.length = 1 ∨
      amax ((List.range rows.length).map (fun i : Nat => (i : Rat)))
        ≠ amin ((List.range rows.length).map (fun i : Nat => (i : Rat)))) :
    linregress ((List.range rows.length).map (fun i : Nat => (i : Rat)))
        (rows.map (fun r => r.temp_antarctic))
      = Except.ok (regSlope rows, regIntercept rows) := by
  have hxne : (List.range rows.length).map (fun i : Nat => (i : Rat)) ≠ [] := by
    simp only [ne_eq, List.map_eq_nil_iff, List.range_eq_nil]
    intro h
    exact hrows (List.length_eq_zero.mp h)
  have hyne : rows.map (fun r => r.temp_antarctic) ≠ [] := by
    simp only [ne_eq, List.map_eq_nil_iff]
    exact hrows
  have hlenx : ((List.range rows.length).map (fun i : Nat => (i : Rat))).length = rows.length := by
    simp
  rw [linregress_ok _ _ hxne hyne (by rw [hlenx]; exact hne)]
  rfl

lemma display_plot_spec (snap : Snapshot) (hrows : snap.df.rows ≠ [])
    (hne : snap.df.rows.length = 1 ∨
      amax ((List.range snap.df.rows.length).map (fun i : Nat => (i : Rat)))
        ≠ amin ((List.range snap.df.rows.length).map (fun i : Nat => (i : Rat)))) :
    display_plot snap = Except.ok
      ({ rows := snap.df.rows
         timestampAsDatetime := true
         best_fit_line := some (bestFitLine snap.df.rows) },
        chartFig snap.df.rows) := by
  have hlin := linregress_chart snap.df.rows hrows hne
  simp only [display_plot]
  rw [if_neg (by simp [List.isEmpty_iff, hrows])]
  rw [hlin]
  rfl

lemma pipeline_rows_ne_nil (state : List Reading) (g : GenInput) :
    (reactive_calc_combined state g).2.df.rows ≠ [] := by
  have h := dequeAppend_ne_nil state (mkReading g)
  show (mkDataFrame (dequeAppend DEQUE_SIZE state (mkReading g))).rows ≠ []
  simp only [mkDataFrame, ne_eq, List.map_eq_nil_iff]
  exact h

lemma pipeline_hne (state : List Reading) (g : GenInput) :
    (reactive_calc_combined state g).2.df.rows.length = 1 ∨
      amax ((List.range (reactive_calc_combined state g).2.df.rows.length).map
          (fun i : Nat => (i : Rat)))
        ≠ amin ((List.range (reactive_calc_combined state g).2.df.rows.length).map
          (fun i : Nat => (i : Rat))) := by
  rcases Nat.lt_or_ge (reactive_calc_combined state g).2.df.rows.length 2 with h | h
  · left
    have hpos : 0 < (reactive_calc_combined state g).2.df.rows.length :=
      List.length_pos.mpr (pipeline_rows_ne_nil state g)
    omega
  · right
    exact amax_ne_amin_idx _ h

/-- C10: the pipeline appends a reading before building the tabular
projection, so the DataFrame the chart renderer receives is never empty, the
renderer's empty-DataFrame guard never fires, and `display_plot` always
returns a bound figure (no `NameError` at the `return fig`). -/
theorem chart_df_never_empty (state : List Reading) (g : GenInput) :
    (reactive_calc_combined state g).2.df.rows ≠ [] ∧
    (reactive_calc_combined state g).2.df.rows.isEmpty = false ∧
    ∃ out, display_plot (reactive_calc_combined state g).2 = Except.ok out := by
  have h1 := pipeline_rows_ne_nil state g
  refine ⟨h1, by simp [List.isEmpty_iff, h1], ?_⟩
  exact ⟨_, display_plot_spec _ h1 (pipeline_hne state g)⟩

lemma mem_zip_self {l : List Rat} {p : Rat × Rat} (h : p ∈ l.zip l) : p.1 = p.2 := by
  induction l with
  | nil => simp [List.zip] at h
  | cons a t ih =>
    rw [List.zip_cons_cons] at h
    rcases List.mem_cons.mp h with h1 | h2
    · rw [h1]
    · exact ih h2

lemma sum_sq_dev_idx_pos (n : Nat) (hn : 2 ≤ n) (μ : Rat) :
    0 < (((((List.range n).map (fun i : Nat => (i : Rat))).zip
        ((List.range n).map (fun i : Nat => (i : Rat)))).map
      (fun p => (p.1 - μ) * (p.2 - μ))).sum) := by
  have hlen : ((List.range n).map (fun i : Nat => (i : Rat))).length = n := by simp
  have hnn : ∀ z ∈ ((((List.range n).map (fun i : Nat => (i : Rat))).zip
      ((List.range n).map (fun i : Nat => (i : Rat)))).map
      (fun p => (p.1 - μ) * (p.2 - μ))), 0 ≤ z := by
    intro z hz
    obtain ⟨p, hp, rfl⟩ := List.mem_map.mp hz
    have hd := mem_zip_self hp
    rw [hd]
    exact mul_self_nonneg _
  have hkey : ∀ i, i < n → ((i : Rat) - μ) * ((i : Rat) - μ)
      ∈ ((((List.range n).map (fun i : Nat => (i : Rat))).zip
        ((List.range n).map (fun i : Nat => (i : Rat)))).map
        (fun p => (p.1 - μ) * (p.2 - μ))) := by
    intro i hi
    have hi1 : i < ((List.range n).map (fun i : Nat => (i : Rat))).length := by
      rw [hlen]; exact hi
    have hi2 : i < (((List.range n).map (fun i : Nat => (i : Rat))).zip
        ((List.range n).map (fun i : Nat => (i : Rat)))).length := by
      rw [List.length_zip, hlen]
      simp [hi]
    have hx : ((List.range n).map (fun i : Nat => (i : Rat)))[i] = (i : Rat) := by
      simp
    refine List.mem_map.mpr ⟨(((List.range n).map (fun i : Nat => (i : Rat))).zip
      ((List.range n).map (fun i : Nat => (i : Rat))))[i], List.getElem_mem hi2, ?_⟩
    rw [List.getElem_zip, hx]
  rcases eq_or_ne μ 0 with hμ | hμ
  · have hle := List.single_le_sum hnn _ (hkey 1 (by omega))
    have hgt : (0 : Rat) < (((1 : Nat) : Rat) - μ) * (((1 : Nat) : Rat) - μ) := by
      rw [hμ]
      norm_num
    linarith
  · have hle := List.single_le_sum hnn _ (hkey 0 (by omega))
    have hgt : (0 : Rat) < (((0 : Nat) : Rat) - μ) * (((0 : Nat) : Rat) - μ) := by
      apply mul_self_pos.mpr
      simpa using hμ
    linarith

lemma ssxy_idx_pos (n : Nat) (hn : 2 ≤ n) :
    0 < ssxy ((List.range n).map (fun i : Nat => (i : Rat)))
      ((List.range n).map (fun i : Nat => (i : Rat))) := by
  unfold ssxy
  apply div_pos
  · exact sum_sq_dev_idx_pos n hn _
  · have hlen : ((List.range n).map (fun i : Nat => (i : Rat))).length = n := by simp
    rw [hlen]
    have h0 : 0 < n := by omega
    exact_mod_cast h0

lemma regSlope_regIntercept_some (rows : List Row) (h2 : 2 ≤ rows.length) :
    ∃ s b : Rat, regSlope rows = some s ∧ regIntercept rows = some b := by
  have hpos := ssxy_idx_pos rows.length h2
  have hs : regSlope rows
      = some (ssxy ((List.range rows.length).map (fun i : Nat => (i : Rat)))
          (rows.map (fun r => r.temp_antarctic))
        / ssxy ((List.range rows.length).map (fun i : Nat => (i : Rat)))
          ((List.range rows.length).map (fun i : Nat => (i : Rat)))) := by
    unfold regSlope
    rw [if_neg (ne_of_gt hpos)]
  exact ⟨_, _, hs, by unfold regIntercept; rw [hs]; rfl⟩

/-- C9: the chart's trend line is a simple linear regression fitted over the
index-vs-temperature series of the Antarctic column of the current snapshot's
tabular projection: the x series handed to the fit is the row indices
`0 .. n-1` (not the timestamps), the y series is the Antarctic temperatures,
and the i-th point of the drawn line is `slope * i + intercept` for the
fitted pair; with at least two rows the fitted slope and intercept are
defined values. -/
theorem trend_line_is_index_regression (state : List Reading) (g : GenInput) :
    linregress
        ((List.range (reactive_calc_combined state g).2.df.rows.length).map
          (fun i : Nat => (i : Rat)))
        ((reactive_calc_combined state g).2.df.rows.map (fun r => r.temp_antarctic))
      = Except.ok (regSlope (reactive_calc_combined state g).2.df.rows,
          regIntercept (reactive_calc_combined state g).2.df.rows) ∧
    display_plot (reactive_calc_combined state g).2 = Except.ok
      ({ rows := (reactive_calc_combined state g).2.df.rows
         timestampAsDatetime := true
         best_fit_line := some (bestFitLine (reactive_calc_combined state g).2.df.rows) },
        chartFig (reactive_calc_combined state g).2.df.rows) ∧
    bestFitLine (reactive_calc_combined state g).2.df.rows
      = ((List.range (reactive_calc_combined state g).2.df.rows.length).map
          (fun i : Nat => (i : Rat))).map
          (fun x => (regSlope (reactive_calc_combined state g).2.df.rows).bind
            (fun s => (regIntercept (reactive_calc_combined state g).2.df.rows).map
              (fun b => s * x + b))) ∧
    (2 ≤ (reactive_calc_combined state g).2.df.rows.length →
      ∃ s b : Rat,
        regSlope (reactive_calc_combined state g).2.df.rows = some s ∧
        regIntercept (reactive_calc_combined state g).2.df.rows = some b ∧
        bestFitLine (reactive_calc_combined state g).2.df.rows
          = (List.range (reactive_calc_combined state g).2.df.rows.length).map
              (fun i : Nat => some (s * i + b))) := by
  have h1 := pipeline_rows_ne_nil state g
  refine ⟨linregress_chart _ h1 (pipeline_hne state g),
    display_plot_spec _ h1 (pipeline_hne state g), rfl, ?_⟩
  intro h2
  obtain ⟨s, b, hs, hb⟩ :=
    regSlope_regIntercept_some (reactive_calc_combined state g).2.df.rows h2
  refine ⟨s, b, hs, hb, ?_⟩
  unfold bestFitLine
  rw [hs, hb, List.map_map]
  simp

/-- Witness for `trend_line_is_index_regression`: the two-row hypothesis of
its last conjunct discharged on the second tick (buffer `[mkReading gB]`,
new input `gA`). -/
theorem trend_line_is_index_regression_witness :
    ∃ s b : Rat,
      regSlope (reactive_calc_combined [mkReading gB] gA).2.df.rows = some s ∧
      regIntercept (reactive_calc_combined [mkReading gB] gA).2.df.rows = some b ∧
      bestFitLine (reactive_calc_combined [mkReading gB] gA).2.df.rows
        = (List.range (reactive_calc_combined [mkReading gB] gA).2.df.rows.length).map
            (fun i : Nat => some (s * i + b)) := by
  have h2 : 2 ≤ (reactive_calc_combined [mkReading gB] gA).2.df.rows.length := by
    decide
  exact (trend_line_is_index_regression [mkReading gB] gA).2.2.2 h2

lemma range_one_cast : (List.range 1).map (fun i : Nat => (i : Rat)) = [0] := by
  rw [show List.range 1 = [0] from rfl]
  simp

lemma ssxy_zero_single : ssxy [(0 : Rat)] [(0 : Rat)] = 0 := by
  simp [ssxy, mean]

lemma regSlope_single (rows : List Row) (h1 : rows.length = 1) :
    regSlope rows = none := by
  unfold regSlope
  rw [if_pos]
  rw [h1, range_one_cast]
  exact ssxy_zero_single

lemma bestFitLine_single (rows : List Row) (h1 : rows.length = 1) :
    bestFitLine rows = [none] := by
  unfold bestFitLine
  rw [regSlope_single rows h1, h1, range_one_cast]
  simp

/-- C2 (amended): for a freshly started buffer with exactly one reading,
rendering the chart completes without propagating a fault — the single-point
`linregress` call raises neither of its guards — but the fit is not skipped
and does not produce a defined fallback: the fitted slope and intercept are
NaN (`0.0 / 0.0`), and the single entry of the added regression-line column
is NaN rather than, say, a zero-slope value. -/
theorem single_point_regression_nan (g : GenInput) :
    regSlope (reactive_calc_combined [] g).2.df.rows = none ∧
    regIntercept (reactive_calc_combined [] g).2.df.rows = none ∧
    display_plot (reactive_calc_combined [] g).2 = Except.ok
      ({ rows := (reactive_calc_combined [] g).2.df.rows
         timestampAsDatetime := true
         best_fit_line := some [none] },
        chartFig (reactive_calc_combined [] g).2.df.rows) := by
  have h1 : (reactive_calc_combined [] g).2.df.rows.length = 1 := rfl
  have hs := regSlope_single _ h1
  have hb : regIntercept (reactive_calc_combined [] g).2.df.rows = none := by
    unfold regIntercept
    rw [hs]
    rfl
  have hd := display_plot_spec (reactive_calc_combined [] g).2
    (pipeline_rows_ne_nil [] g) (Or.inl h1)
  refine ⟨hs, hb, ?_⟩
  rw [hd, bestFitLine_single _ h1]

/-- C2 counterexample: at the concrete first-tick snapshot the claim as
stated fails: the chart render completes, but the regression is neither
skipped (the `best_fit_line` column is assigned) nor a defined line — the
fitted slope is NaN and the column's single entry is NaN (`none`). -/
theorem single_point_regression_counterexample :
    regSlope firstTickSnap.df.rows = none ∧
    (display_plot firstTickSnap).isOk = true ∧
    (display_plot firstTickSnap).toOption.map (fun out => out.1.best_fit_line)
      = some (some [none]) := by
  have h1 : firstTickSnap.df.rows.length = 1 := rfl
  have hd := display_plot_spec firstTickSnap (pipeline_rows_ne_nil [] gA) (Or.inl h1)
  refine ⟨regSlope_single _ h1, ?_, ?_⟩
  · rw [hd]
    rfl
  · rw [hd, bestFitLine_single _ h1]
    rfl

/-- C6 (amended): reading the deque into the snapshot mutates nothing, and
the snapshot's DataFrame starts with a string timestamp column and no
best-fit column; but a returned Snapshot does not stay unmodified: the chart
renderer rewrites the snapshot's DataFrame in place — converting the
timestamp column to datetimes and adding a `best_fit_line` column while
keeping the rows — so the tabular projection after the render differs from
the one the Snapshot was produced with.  (The `deque_snapshot` field is
likewise an alias of the live deque object, not a copy.) -/
theorem snapshot_df_mutated_by_chart (state : List Reading) (g : GenInput) :
    (reactive_calc_combined state g).2.deque_snapshot = (reactive_calc_combined state g).1 ∧
    (reactive_calc_combined state g).2.df.timestampAsDatetime = false ∧
    (reactive_calc_combined state g).2.df.best_fit_line = none ∧
    ∃ df' fig, display_plot (reactive_calc_combined state g).2 = Except.ok (df', fig) ∧
      df'.rows = (reactive_calc_combined state g).2.df.rows ∧
      df'.timestampAsDatetime = true ∧
      df'.best_fit_line.isSome = true ∧
      df' ≠ (reactive_calc_combined state g).2.df := by
  refine ⟨rfl, rfl, rfl, _, _,
    display_plot_spec _ (pipeline_rows_ne_nil state g) (pipeline_hne state g),
    rfl, rfl, rfl, ?_⟩
  intro h
  have hproj := congrArg DataFrame.timestampAsDatetime h
  simp [reactive_calc_combined, mkDataFrame] at hproj

/-- C6 counterexample: at the concrete first-tick snapshot the claim as
stated fails: the chart renderer modifies the tabular projection of the
Snapshot it received — before the render the DataFrame has a string
timestamp column and no `best_fit_line` column, after `display_plot` the
same object has a datetime timestamp column and a `best_fit_line` column. -/
theorem snapshot_mutation_counterexample :
    firstTickSnap.df.timestampAsDatetime = false ∧
    firstTickSnap.df.best_fit_line = none ∧
    (display_plot firstTickSnap).toOption.map
        (fun out => (out.1.timestampAsDatetime, out.1.best_fit_line.isSome))
      = some (true, true) := by
  have h1 : firstTickSnap.df.rows.length = 1 := rfl
  have hd := display_plot_spec firstTickSnap (pipeline_rows_ne_nil [] gA) (Or.inl h1)
  refine ⟨rfl, rfl, ?_⟩
  rw [hd]
  rfl
